import Mathlib

/-!
Shallow embedding of `web/src/app/admin/users/page.tsx` from the danswer
repository: the admin user-management page.  The page is built from three
components — `UsersTables` (the tabbed container over the current, invited
and, in cloud deployments, pending user lists), `SearchableTables` (the
draft/committed search controller) and `AddUserButton` (the bulk-invite
workflow with its first-invite confirmation gate).

Remote data arrives through SWR cache entries; an entry holds an optional
`data` value, an optional `error` value and a loading flag.  JavaScript
truthiness is modelled explicitly: `undefined` data is `Option.none`, and
an array (even the empty one) is truthy, so `invitedUsers || []` becomes
`Option.getD [] `and `invitedUsers && invitedUsers.length === 0` becomes
a match on the option.
-/

namespace AdminUsersPage

/-- An invited (or pending) user snapshot as listed by the backend;
the page only ever reads the email for display and filtering. -/
structure InvitedUserSnapshot where
  email : String
deriving Repr, DecidableEq

/-- The body attached to a failed fetch, as produced by
`errorHandlingFetcher`: the page reads `error.info.detail`. -/
structure ErrorBody where
  detail : Option String
deriving Repr, DecidableEq

/-- A fetch error object; `info` is the parsed error body, absent when the
body could not be parsed (the page's `domainsError?.info?.detail` chain). -/
structure FetchError where
  info : Option ErrorBody
deriving Repr, DecidableEq

/-- One SWR cache entry as the page observes it through `useSWR`:
`data` is the last successful response (absent before the first success),
`error` the last failure, `isLoading` the initial-load flag. -/
structure CacheEntry (α : Type) where
  data : Option α
  error : Option FetchError
  isLoading : Bool
deriving Repr, DecidableEq

/-- An SWR entry backed by no key (`useSWR(null, ...)`): never fetches,
never loads, never errors. -/
def CacheEntry.inactive {α : Type} : CacheEntry α :=
  { data := none, error := none, isLoading := false }

namespace UsersTables

/-- The SWR key of the invited-users list inside `UsersTables`
(page.tsx line 38). -/
def invitedUsersKey : String := "/api/manage/users/invited"

/-- The SWR key of the valid-domains list (page.tsx line 43). -/
def validDomainsKey : String := "/api/manage/admin/valid-domains"

/-- The SWR key of the tenant pending-users list, registered only when the
cloud flag is set: `NEXT_PUBLIC_CLOUD_ENABLED ? "/api/tenants/users/pending"
: null` (page.tsx line 53). -/
def pendingUsersKey (cloudEnabled : Bool) : Option String :=
  if cloudEnabled then some "/api/tenants/users/pending" else none

/-- The pending-users cache entry the component observes: when the key is
`null` SWR performs no fetch and the entry stays inactive. -/
def pendingEntry (cloudEnabled : Bool)
    (fetch : String → CacheEntry (List InvitedUserSnapshot)) :
    CacheEntry (List InvitedUserSnapshot) :=
  match pendingUsersKey cloudEnabled with
  | none => CacheEntry.inactive
  | some k => fetch k

/-- Props handed to `SignedUpUserTable` (the Current Users view): the
invited list with absent data replaced by `[]`, and the committed query. -/
structure SignedUpUserTableProps where
  invitedUsers : List InvitedUserSnapshot
  q : String
deriving Repr, DecidableEq

/-- Props handed to `InvitedUserTable`. -/
structure InvitedUserTableProps where
  users : List InvitedUserSnapshot
  error : Option FetchError
  isLoading : Bool
  q : String
deriving Repr, DecidableEq

/-- Props handed to `PendingUsersTable`. -/
structure PendingUsersTableProps where
  users : List InvitedUserSnapshot
  error : Option FetchError
  isLoading : Bool
  q : String
deriving Repr, DecidableEq

/-- The rendered tabbed container: the list of tab triggers and the three
tab contents; the pending tab is present only in cloud deployments. -/
structure TabsView where
  tabTriggers : List String
  current : SignedUpUserTableProps
  invited : InvitedUserTableProps
  pending : Option PendingUsersTableProps
deriving Repr, DecidableEq

/-- What `UsersTables` returns: the whole-container loading indicator, the
whole-container valid-domains error panel, or the tabs. -/
inductive View where
  | loader
  | domainsErrorPanel (errorMsg : Option String)
  | tabs (t : TabsView)
deriving Repr, DecidableEq

/-- `true` exactly on the error-panel variant. -/
def View.isDomainsErrorPanel : View → Bool
  | .domainsErrorPanel _ => true
  | _ => false

/-- `true` exactly on the tabs variant. -/
def View.isTabs : View → Bool
  | .tabs _ => true
  | _ => false

/-- The body of `UsersTables` (page.tsx lines 56-132), with the cache
entries it subscribes to passed explicitly.  The branch order is the
source's: `if (!validDomains) return <ThreeDotsLoader />;` first, then
`if (domainsError) return <ErrorCallout ... />;`, then the tabs. -/
def render (cloudEnabled : Bool) (q : String)
    (invited : CacheEntry (List InvitedUserSnapshot))
    (domains : CacheEntry (List String))
    (pending : CacheEntry (List InvitedUserSnapshot)) : View :=
  match domains.data with
  | none => .loader
  | some _ =>
    match domains.error with
    | some e => .domainsErrorPanel (e.info.bind ErrorBody.detail)
    | none =>
      .tabs
        { tabTriggers :=
            ["current", "invited"] ++
              (if cloudEnabled then ["pending"] else [])
          current := { invitedUsers := invited.data.getD [], q := q }
          invited :=
            { users := invited.data.getD []
              error := invited.error
              isLoading := invited.isLoading
              q := q }
          pending :=
            if cloudEnabled then
              some
                { users := pending.data.getD []
                  error := pending.error
                  isLoading := pending.isLoading
                  q := q }
            else none }

end UsersTables

/-- A popup kind, the `type` field of `PopupSpec`. -/
inductive PopupKind where
  | success
  | error
deriving Repr, DecidableEq

/-- A popup notification: `setPopup({message, type})`. -/
structure PopupSpec where
  message : String
  type : PopupKind
deriving Repr, DecidableEq

namespace SearchableTables

/-- The two `useState` slots of `SearchableTables` (page.tsx lines
137-138): `query` is the draft edited on every keystroke, `q` the
committed query handed to `UsersTables`. -/
structure SearchState where
  query : String
  q : String
deriving Repr, DecidableEq

/-- The search events the component wires up: `setQuery` on every change
of the `SearchBar` input, `submit` for `onSearch` (page.tsx line 150). -/
inductive SearchEvent where
  | setQuery (s : String)
  | submit
deriving Repr, DecidableEq

/-- One step of the search controller: `setQuery` overwrites the draft,
`onSearch={() => setQ(query)}` copies the draft into the committed query. -/
def searchStep : SearchEvent → SearchState → SearchState
  | .setQuery s, st => { st with query := s }
  | .submit, st => { st with q := st.query }

/-- The query `SearchableTables` passes to `UsersTables`
(`<UsersTables q={q} ... />`, page.tsx line 154): the committed slot. -/
def tablesQuery (st : SearchState) : String := st.q

end SearchableTables

namespace AddUserButton

/-- The SWR key of the invited-users list inside `AddUserButton`
(page.tsx line 169). -/
def invitedUsersKey : String := "/api/manage/users/invited"

/-- The two `useState` slots of `AddUserButton` (page.tsx lines 165-166):
whether the bulk-add modal is open and whether the first-invite
confirmation step is shown. -/
structure ButtonState where
  modal : Bool
  showConfirmation : Bool
deriving Repr, DecidableEq

/-- The idle state: no modal, no confirmation step. -/
def idle : ButtonState := { modal := false, showConfirmation := false }

/-- The first-invite gate condition of `handleInviteClick` (page.tsx
lines 193-197): `!NEXT_PUBLIC_CLOUD_ENABLED && invitedUsers &&
invitedUsers.length === 0`.  `undefined` data is falsy; an array is
always truthy, so the test is: data present and of length zero. -/
def inviteFirstTimeGate (cloudEnabled : Bool)
    (invitedUsers : Option (List InvitedUserSnapshot)) : Bool :=
  !cloudEnabled &&
    (match invitedUsers with
     | none => false
     | some l => l.length == 0)

/-- `handleInviteClick` (page.tsx lines 192-202): if the gate holds, show
the confirmation step; otherwise open the bulk-add modal directly. -/
def handleInviteClick (cloudEnabled : Bool)
    (invitedUsers : Option (List InvitedUserSnapshot))
    (s : ButtonState) : ButtonState :=
  if inviteFirstTimeGate cloudEnabled invitedUsers then
    { s with showConfirmation := true }
  else
    { s with modal := true }

/-- `handleConfirmFirstInvite` (page.tsx lines 204-207): close the
confirmation step and open the modal. -/
def handleConfirmFirstInvite (s : ButtonState) : ButtonState :=
  { s with showConfirmation := false, modal := true }

/-- The confirmation modal's `onClose={() => setShowConfirmation(false)}`
(page.tsx line 222). -/
def dismissConfirmation (s : ButtonState) : ButtonState :=
  { s with showConfirmation := false }

/-- The confirmation modal is rendered iff `showConfirmation` holds
(page.tsx line 218). -/
def rendersConfirmation (s : ButtonState) : Bool := s.showConfirmation

/-- The bulk-add modal is rendered iff `modal` holds (page.tsx line 230). -/
def rendersModal (s : ButtonState) : Bool := s.modal

/-- The key predicate passed to the global SWR `mutate` in `onSuccess`
(page.tsx lines 174-176): string keys starting with
`"/api/manage/users"`.  JavaScript's `key.startsWith(p)` is prefix
equality on the character sequence. -/
def inviteSuccessKeyPred (key : String) : Bool :=
  "/api/manage/users".toList.isPrefixOf key.toList

/-- Modelled from the spec: the current-users list is fetched by
`SignedUpUserTable`, a component outside this file; per the spec it lives
in the shared "users" resource-key namespace alongside the invited-users
key, so its key starts with `"/api/manage/users"`. -/
def currentUsersKey : String := "/api/manage/users/accepted"

/-- Every SWR key registered on the page: the invited-users key, the
valid-domains key, the (spec-modelled) current-users key, and — only in
cloud deployments — the tenant pending-users key. -/
def registeredKeys (cloudEnabled : Bool) : List String :=
  [UsersTables.invitedUsersKey, UsersTables.validDomainsKey,
   currentUsersKey] ++ (UsersTables.pendingUsersKey cloudEnabled).toList

/-- The set of keys a `mutate(pred)` call triggers a refetch for: every
registered key matching the predicate. -/
def mutatedKeys (pred : String → Bool) (registered : List String) :
    List String :=
  registered.filter pred

/-- The observable world the invite handlers act on: the button's local
state, the current popup slot, and the list of keys whose refetch has
been triggered. -/
structure World where
  button : ButtonState
  popup : Option PopupSpec
  refetched : List String
deriving Repr, DecidableEq

/-- `onSuccess` (page.tsx lines 173-182): `mutate` every registered key
matching the users-namespace predicate, close the modal, emit the
"Users invited!" success popup. -/
def onSuccess (registered : List String) (w : World) : World :=
  { button := { w.button with modal := false }
    popup := some { message := "Users invited!", type := .success }
    refetched := w.refetched ++ mutatedKeys inviteSuccessKeyPred registered }

/-- The failure body of the bulk-invite response: `(await res.json())
.detail` (page.tsx line 185). -/
structure FailureBody where
  detail : String
deriving Repr, DecidableEq

/-- `onFailure` (page.tsx lines 184-190): parse the detail from the
response body and emit an error popup; the modal state and the cache are
untouched. -/
def onFailure (res : FailureBody) (w : World) : World :=
  { w with
      popup :=
        some { message := "Failed to invite users - " ++ res.detail
               type := .error } }

end AddUserButton

/-! ## Theorems about the embedded page -/

/-- Claim C1, counterexample: a valid-domains entry that carries an error
but holds no data (the initial fetch failed) makes `UsersTables` render
the loading indicator, not the domains error panel — the `!validDomains`
check runs before the `domainsError` check. -/
theorem C1_counterexample :
    (({ data := none, error := some { info := some { detail := some "boom" } },
        isLoading := false } : CacheEntry (List String)).error).isSome = true ∧
    UsersTables.render false ""
        { data := none, error := none, isLoading := true }
        { data := none, error := some { info := some { detail := some "boom" } },
          isLoading := false }
        CacheEntry.inactive = UsersTables.View.loader ∧
    (UsersTables.render false ""
        { data := none, error := none, isLoading := true }
        { data := none, error := some { info := some { detail := some "boom" } },
          isLoading := false }
        CacheEntry.inactive).isDomainsErrorPanel = false :=
  ⟨rfl, rfl, rfl⟩

/-- Claim C1, amended: when the valid-domains entry carries an error and
also holds data, `UsersTables` replaces the whole tabbed container with
the domains error panel (no tabs, no tables); when the entry holds no
data, the loading indicator is rendered instead — even if the entry
carries an error. -/
theorem C1_domains_error_panel_requires_data (cloudEnabled : Bool)
    (q : String) (invited pending : CacheEntry (List InvitedUserSnapshot))
    (domains : CacheEntry (List String)) :
    (∀ (v : List String) (e : FetchError),
        domains.data = some v → domains.error = some e →
        UsersTables.render cloudEnabled q invited domains pending =
          UsersTables.View.domainsErrorPanel (e.info.bind ErrorBody.detail)) ∧
    (domains.data = none →
        UsersTables.render cloudEnabled q invited domains pending =
          UsersTables.View.loader) := by
  obtain ⟨dd, de, dl⟩ := domains
  constructor
  · intro v e hd he
    cases dd with
    | none => exact Option.noConfusion hd
    | some w =>
      cases de with
      | none => exact Option.noConfusion he
      | some f =>
        injection he with he
        subst he
        rfl
  · intro hd
    cases dd with
    | some w => exact Option.noConfusion hd
    | none => rfl

/-- Claim C1, witness: at concrete entries, error-with-data renders the
panel and error-without-data renders the loader. -/
theorem C1_witness :
    UsersTables.render false ""
        { data := none, error := none, isLoading := true }
        { data := some ["x.com"],
          error := some { info := some { detail := some "boom" } },
          isLoading := false }
        CacheEntry.inactive =
      UsersTables.View.domainsErrorPanel (some "boom") ∧
    UsersTables.render false ""
        { data := none, error := none, isLoading := true }
        { data := none,
          error := some { info := some { detail := some "boom" } },
          isLoading := false }
        CacheEntry.inactive = UsersTables.View.loader :=
  ⟨(C1_domains_error_panel_requires_data false ""
        { data := none, error := none, isLoading := true }
        CacheEntry.inactive
        { data := some ["x.com"],
          error := some { info := some { detail := some "boom" } },
          isLoading := false }).1
      ["x.com"] { info := some { detail := some "boom" } } rfl rfl,
   (C1_domains_error_panel_requires_data false ""
        { data := none, error := none, isLoading := true }
        CacheEntry.inactive
        { data := none,
          error := some { info := some { detail := some "boom" } },
          isLoading := false }).2 rfl⟩

/-- Claim C2, counterexample: in a multi-tenant deployment the pending-users
key "/api/tenants/users/pending" does not start with "/api/manage/users",
so a successful bulk invite does not trigger its refetch. -/
theorem C2_counterexample :
    "/api/tenants/users/pending" ∉
      (AddUserButton.onSuccess (AddUserButton.registeredKeys true)
        { button := { modal := true, showConfirmation := false },
          popup := none, refetched := [] }).refetched := by
  decide

/-- Claim C2, amended: a successful bulk-invite submission closes the
modal, emits the success notification, and triggers a refetch of exactly
the registered keys matching the "/api/manage/users" namespace predicate —
the invited-users and current-users entries; the pending-users key does
not match and is not refetched, even in a multi-tenant deployment. -/
theorem C2_success_effects (cloudEnabled : Bool) (w : AddUserButton.World) :
    (AddUserButton.onSuccess (AddUserButton.registeredKeys cloudEnabled)
        w).button.modal = false ∧
    (AddUserButton.onSuccess (AddUserButton.registeredKeys cloudEnabled)
        w).popup =
      some { message := "Users invited!", type := PopupKind.success } ∧
    (AddUserButton.onSuccess (AddUserButton.registeredKeys cloudEnabled)
        w).refetched =
      w.refetched ++
        [UsersTables.invitedUsersKey, AddUserButton.currentUsersKey] := by
  cases cloudEnabled <;> exact ⟨rfl, rfl, rfl⟩

/-- Claim C3: in single-tenant mode with a known-empty invited set,
activating the invite control shows the confirmation step and no modal;
confirming closes the confirmation and opens the bulk-add modal;
dismissing returns to idle with no modal shown. -/
theorem C3_first_invite_flow :
    AddUserButton.rendersConfirmation
        (AddUserButton.handleInviteClick false (some []) AddUserButton.idle) =
      true ∧
    AddUserButton.rendersModal
        (AddUserButton.handleInviteClick false (some []) AddUserButton.idle) =
      false ∧
    AddUserButton.handleConfirmFirstInvite
        (AddUserButton.handleInviteClick false (some []) AddUserButton.idle) =
      { modal := true, showConfirmation := false } ∧
    AddUserButton.dismissConfirmation
        (AddUserButton.handleInviteClick false (some []) AddUserButton.idle) =
      AddUserButton.idle :=
  ⟨rfl, rfl, rfl, rfl⟩

/-- Claim C4: when the invited-users data is absent (count unknown) or the
invited set is non-empty, activating the invite control opens the bulk-add
modal directly, leaving the confirmation flag untouched: the first-invite
gate treats an unknown count as false. -/
theorem C4_unknown_or_nonempty_skips_confirmation (cloudEnabled : Bool)
    (invitedUsers : Option (List InvitedUserSnapshot))
    (s : AddUserButton.ButtonState)
    (h : invitedUsers = none ∨
      ∃ u l, invitedUsers = some (u :: l)) :
    AddUserButton.handleInviteClick cloudEnabled invitedUsers s =
      { s with modal := true } := by
  rcases h with h | ⟨u, l, h⟩ <;> subst h <;>
    simp [AddUserButton.handleInviteClick, AddUserButton.inviteFirstTimeGate]

/-- Claim C4, witness: with unknown data and with a one-element invited
set, the click opens the modal directly from idle. -/
theorem C4_witness :
    AddUserButton.handleInviteClick true none AddUserButton.idle =
      { AddUserButton.idle with modal := true } ∧
    AddUserButton.handleInviteClick false (some [{ email := "a@x.com" }])
        AddUserButton.idle =
      { AddUserButton.idle with modal := true } :=
  ⟨C4_unknown_or_nonempty_skips_confirmation true none AddUserButton.idle
      (Or.inl rfl),
   C4_unknown_or_nonempty_skips_confirmation false
      (some [{ email := "a@x.com" }]) AddUserButton.idle
      (Or.inr ⟨{ email := "a@x.com" }, [], rfl⟩)⟩

/-- Claim C5: a failing bulk-invite submission leaves the button state
(hence the open modal) and the refetched-key list untouched and emits an
error notification whose message contains the parsed detail string. -/
theorem C5_failure_effects (res : AddUserButton.FailureBody)
    (w : AddUserButton.World) :
    (AddUserButton.onFailure res w).button = w.button ∧
    (AddUserButton.onFailure res w).refetched = w.refetched ∧
    ∃ p, (AddUserButton.onFailure res w).popup =
      some { message := p ++ res.detail, type := PopupKind.error } :=
  ⟨rfl, rfl, "Failed to invite users - ", rfl⟩

/-- Claim C6: with the cloud flag false, the pending-users SWR key is
`null` (no fetch is ever issued, the entry stays inactive) and any tabs
the container renders have no pending tab and no "pending" trigger. -/
theorem C6_single_tenant_no_pending (q : String)
    (fetch : String → CacheEntry (List InvitedUserSnapshot))
    (invited pending : CacheEntry (List InvitedUserSnapshot))
    (domains : CacheEntry (List String)) (t : UsersTables.TabsView)
    (h : UsersTables.render false q invited domains pending =
      UsersTables.View.tabs t) :
    UsersTables.pendingUsersKey false = none ∧
    UsersTables.pendingEntry false fetch = CacheEntry.inactive ∧
    t.pending = none ∧
    "pending" ∉ t.tabTriggers := by
  obtain ⟨dd, de, dl⟩ := domains
  cases dd with
  | none => exact UsersTables.View.noConfusion h
  | some v =>
    cases de with
    | some e => exact UsersTables.View.noConfusion h
    | none =>
      injection h with h
      subst h
      refine ⟨rfl, rfl, rfl, ?_⟩
      show "pending" ∉
        (["current", "invited"] ++ if false = true then ["pending"] else [])
      decide

/-- Claim C6, witness: at a concrete single-tenant state the rendered tabs
have no pending tab and no "pending" trigger, and the pending key is
absent. -/
theorem C6_witness :
    UsersTables.pendingUsersKey false = none ∧
    UsersTables.pendingEntry false (fun _ => CacheEntry.inactive) =
      CacheEntry.inactive ∧
    ({ tabTriggers := ["current", "invited"]
       current := { invitedUsers := [], q := "" }
       invited := { users := [], error := none, isLoading := false, q := "" }
       pending := none } : UsersTables.TabsView).pending = none ∧
    "pending" ∉
      ({ tabTriggers := ["current", "invited"]
         current := { invitedUsers := [], q := "" }
         invited := { users := [], error := none, isLoading := false, q := "" }
         pending := none } : UsersTables.TabsView).tabTriggers :=
  C6_single_tenant_no_pending "" (fun _ => CacheEntry.inactive)
    { data := none, error := none, isLoading := false }
    CacheEntry.inactive
    { data := some ["x.com"], error := none, isLoading := false }
    { tabTriggers := ["current", "invited"]
      current := { invitedUsers := [], q := "" }
      invited := { users := [], error := none, isLoading := false, q := "" }
      pending := none }
    rfl

/-- Claim C7: the committed query (what `UsersTables` receives) is
unchanged by every keystroke event and becomes a copy of the draft exactly
on an explicit search submission. -/
theorem C7_committed_only_changes_on_submit :
    (∀ (st : SearchableTables.SearchState) (s : String),
        SearchableTables.tablesQuery
            (SearchableTables.searchStep
              (SearchableTables.SearchEvent.setQuery s) st) =
          SearchableTables.tablesQuery st) ∧
    (∀ st : SearchableTables.SearchState,
        SearchableTables.tablesQuery
            (SearchableTables.searchStep SearchableTables.SearchEvent.submit
              st) =
          st.query) :=
  ⟨fun _ _ => rfl, fun _ => rfl⟩

/-- Claim C8: the invalidation predicate rejects the valid-domains key, so
a successful invite appends only users-namespace keys to the refetched
list and the number of valid-domains refetch triggers is unchanged. -/
theorem C8_valid_domains_untouched (registered : List String)
    (w : AddUserButton.World) :
    AddUserButton.inviteSuccessKeyPred UsersTables.validDomainsKey = false ∧
    (AddUserButton.onSuccess registered w).refetched =
      w.refetched ++
        AddUserButton.mutatedKeys AddUserButton.inviteSuccessKeyPred
          registered ∧
    ((AddUserButton.onSuccess registered w).refetched).count
        UsersTables.validDomainsKey =
      w.refetched.count UsersTables.validDomainsKey := by
  refine ⟨by decide, rfl, ?_⟩
  have hnot : UsersTables.validDomainsKey ∉
      AddUserButton.mutatedKeys AddUserButton.inviteSuccessKeyPred
        registered := by
    intro hmem
    have hp := (List.mem_filter.mp hmem).2
    exact absurd hp (by decide)
  show (w.refetched ++
      AddUserButton.mutatedKeys AddUserButton.inviteSuccessKeyPred
        registered).count UsersTables.validDomainsKey =
    w.refetched.count UsersTables.validDomainsKey
  rw [List.count_append, List.count_eq_zero.mpr hnot, Nat.add_zero]

/-- Claim C9: when the invited-users entry holds no data, the rendered
tabs pass the empty list to both the Current Users and the Invited Users
tables — the Current Users view is rendered, not suppressed. -/
theorem C9_missing_invited_defaults_empty (cloudEnabled : Bool) (q : String)
    (invited pending : CacheEntry (List InvitedUserSnapshot))
    (domains : CacheEntry (List String)) (v : List String)
    (hinv : invited.data = none) (hd : domains.data = some v)
    (he : domains.error = none) :
    ∃ t, UsersTables.render cloudEnabled q invited domains pending =
        UsersTables.View.tabs t ∧
      t.current.invitedUsers = [] ∧ t.invited.users = [] := by
  obtain ⟨dd, de, dl⟩ := domains
  cases dd with
  | none => exact Option.noConfusion hd
  | some w =>
    cases de with
    | some e => exact Option.noConfusion he
    | none =>
      obtain ⟨idata, ierr, iload⟩ := invited
      cases idata with
      | some l => exact Option.noConfusion hinv
      | none => exact ⟨_, rfl, rfl, rfl⟩

/-- Claim C9, witness: at a concrete loading-and-errored invited entry the
tabs render with empty invited lists in both tables. -/
theorem C9_witness :
    ∃ t, UsersTables.render false ""
        { data := none, error := some { info := none }, isLoading := true }
        { data := some ["x.com"], error := none, isLoading := false }
        CacheEntry.inactive = UsersTables.View.tabs t ∧
      t.current.invitedUsers = [] ∧ t.invited.users = [] :=
  C9_missing_invited_defaults_empty false ""
    { data := none, error := some { info := none }, isLoading := true }
    CacheEntry.inactive
    { data := some ["x.com"], error := none, isLoading := false }
    ["x.com"] rfl rfl rfl

/-- Claim C10: the first-invite gate (in `AddUserButton`) and the tables
(in `UsersTables`) subscribe to the identical invited-users key, so in any
cache state both read the same entry and the same data. -/
theorem C10_shared_invited_key :
    AddUserButton.invitedUsersKey = UsersTables.invitedUsersKey ∧
    ∀ fetch : String → CacheEntry (List InvitedUserSnapshot),
      (fetch AddUserButton.invitedUsersKey).data =
        (fetch UsersTables.invitedUsersKey).data :=
  ⟨rfl, fun _ => rfl⟩

end AdminUsersPage
